import Mathlib

/-!
Verification development for the review-scoring core of the
`python_dashboard` repository: the text-cleaning pipeline
(`src/preprocessing/text_cleaner.py`), the category extractor
(`src/preprocessing/category_extractor.py`), the churn detector
(`src/analysis/churn_detector.py`) and the opportunity finder
(`src/analysis/opportunity_finder.py`).

Texts are modelled as `List Char`.  Python float arithmetic on scores is
modelled exactly over `ℚ`: every multiplier used by the code (1.5, 1.2,
1.3, 1.1) and every threshold is such that the claims under study do not
depend on binary floating-point rounding.  Python `None` inputs are
modelled with `Option String`.
-/

namespace Dashboard

/-! ## Character classes (`text_cleaner.py`)

The cleaning pipeline is modelled exactly on a fixed alphabet — the ASCII
characters together with the sixteen accented characters whitelisted by
`_remove_special_chars` (see `modelChar` below).  On that alphabet every
Unicode-aware operation of the source (`str.lower`, the regex classes
`\w` and `\s`, `str.split`, `str.strip`, and NFKC normalization, which is
the identity there) coincides character-for-character with the Lean
definitions in this section.  Outside the alphabet the source's Unicode
behaviour (NFKC compatibility mappings such as mathematical bold capital A
becoming a plain `A`, lowercasing of non-ASCII capitals, non-ASCII word
characters kept by `\w`) is not modelled; the idempotence theorem for
`clean_text` therefore carries an explicit alphabet hypothesis.

`pySpace` is the regex class `\s` (and the `str.split` / `str.strip`
separator set) on that alphabet; `pyWordChar` is `\w` on its ASCII part. -/

def pySpace (c : Char) : Bool :=
  c == ' ' || c == '\t' || c == '\n' || c == '\r' || c == '\x0b' || c == '\x0c'

/-- The five punctuation characters of the regex class `[!?.,-]`. -/
def punctChar (c : Char) : Bool :=
  ['!', '?', '.', ',', '-'].contains c

def lowerPairs : List (Char × Char) :=
  [('A', 'a'), ('B', 'b'), ('C', 'c'), ('D', 'd'), ('E', 'e'), ('F', 'f'),
   ('G', 'g'), ('H', 'h'), ('I', 'i'), ('J', 'j'), ('K', 'k'), ('L', 'l'),
   ('M', 'm'), ('N', 'n'), ('O', 'o'), ('P', 'p'), ('Q', 'q'), ('R', 'r'),
   ('S', 's'), ('T', 't'), ('U', 'u'), ('V', 'v'), ('W', 'w'), ('X', 'x'),
   ('Y', 'y'), ('Z', 'z')]

def lowerChar (c : Char) : Char :=
  (lowerPairs.lookup c).getD c

def pyLower (l : List Char) : List Char :=
  l.map lowerChar

/-! ## Substring matching

Python's `needle in haystack` on strings: contiguous substring. -/

def isSubOf : List Char → List Char → Bool
  | needle, [] => needle.isEmpty
  | needle, h :: t => needle.isPrefixOf (h :: t) || isSubOf needle t

/-- `needle in hay` for a `String` needle against a lowered text. -/
def containsSub (needle : String) (hay : List Char) : Bool :=
  isSubOf needle.toList hay

/-- Number of table phrases occurring in the text: models
`sum(1 for signal in signals if signal in text_lower)` (each phrase counted
at most once). -/
def countSignals (sigs : List String) (hay : List Char) : ℕ :=
  (sigs.filter (fun s => containsSub s hay)).length

/-! ## `_remove_urls`: `re.sub(r'https?://\S+|www\.\S+', '', text)`

A match of this pattern starts at an occurrence of `http://`, `https://`
or `www.` followed by at least one non-space character, and (because both
`\S+` are greedy) always extends to the end of the surrounding maximal
non-space run.  `re.sub` deletes the leftmost such match and rescans after
it. -/

def pyNotSpace (c : Char) : Bool := !pySpace c

/-- Python `text.split()`: whitespace-delimited tokens, empty tokens
discarded. -/
def words : List Char → List (List Char)
  | [] => []
  | c :: cs =>
    if pySpace c then words cs
    else (c :: cs.takeWhile pyNotSpace) :: words (cs.dropWhile pyNotSpace)
termination_by l => l.length
decreasing_by
  · simp
  · exact Nat.lt_succ_of_le (List.Sublist.length_le (List.dropWhile_sublist pyNotSpace))

def collapsePunct : List Char → List Char
  | [] => []
  | c :: cs =>
    if punctChar c then
      match cs.takeWhile punctChar with
      | [] => c :: collapsePunct cs
      | _ :: _ => ' ' :: collapsePunct (cs.dropWhile punctChar)
    else c :: collapsePunct cs
termination_by l => l.length
decreasing_by
  · simp
  · exact Nat.lt_succ_of_le (List.Sublist.length_le (List.dropWhile_sublist punctChar))
  · simp

def CATEGORY_KEYWORDS : List (String × List String) :=
  [("Smartphones",
    ["celular", "smartphone", "iphone", "samsung", "motorola",
     "moto g", "galaxy", "xiaomi", "android", "ios", "fone",
     "bateria", "camera", "aplicativo", "tela touch"]),
   ("Notebooks e Computadores",
    ["notebook", "laptop", "computador", "pc", "desktop",
     "processador", "memoria ram", "ssd", "hd", "windows",
     "placa de video", "cooler"]),
   ("TVs e Monitores",
    ["tv", "televisao", "monitor", "smart tv", "led", "lcd",
     "4k", "hdmi", "polegadas", "controle remoto", "netflix",
     "youtube", "tela grande"]),
   ("Eletrodomésticos",
    ["geladeira", "freezer", "microondas", "fogao", "forno",
     "liquidificador", "batedeira", "aspirador", "lavadora",
     "ferro de passar", "ar condicionado", "ventilador", "aquecedor"]),
   ("Móveis",
    ["sofa", "cama", "colchao", "mesa", "cadeira", "estante",
     "guarda-roupa", "armario", "rack", "estofado", "madeira",
     "movel", "comoda"]),
   ("Beleza e Saúde",
    ["shampoo", "condicionador", "perfume", "maquiagem", "creme",
     "protetor", "cabelo", "pele", "hidratante", "sabonete",
     "esmalte", "batom", "cosmetico"]),
   ("Livros e Mídia",
    ["livro", "romance", "autor", "paginas", "leitura", "historia",
     "capitulo", "cd", "dvd", "filme", "blu-ray"]),
   ("Esporte e Lazer",
    ["bicicleta", "bike", "tenis", "corrida", "academia", "peso",
     "exercicio", "bola", "esporte", "treino"]),
   ("Moda e Vestuário",
    ["roupa", "camiseta", "calca", "vestido", "sapato", "bolsa",
     "tecido", "tamanho", "cor", "estampa", "moda"]),
   ("Casa e Decoração",
    ["panela", "cozinha", "decoracao", "quadro", "vaso", "tapete",
     "cortina", "almofada", "luminaria"]),
   ("Informática e Acessórios",
    ["mouse", "teclado", "headset", "webcam", "impressora",
     "pen drive", "cabo usb", "adaptador", "carregador"])]

/-- The `scores` dict of `extract_category`: one entry per category with a
positive keyword-match count, in keyword-table declaration order. -/
def categoryScores (t : List Char) : List (String × ℕ) :=
  CATEGORY_KEYWORDS.filterMap (fun p =>
    let n := (p.2.filter (fun kw => containsSub kw t)).length
    if n > 0 then some (p.1, n) else none)

/-- Python `max(scores, key=scores.get)` over `h :: tl`: keeps the current
candidate on ties, so the first element attaining the maximum wins. -/
def pyMaxBy (h : String × ℕ) (tl : List (String × ℕ)) : String × ℕ :=
  tl.foldl (fun acc p => if p.2 > acc.2 then p else acc) h

/-- `CategoryExtractor.extract_category`.  A `none` text models Python
`None` (and any other non-string input, which the `isinstance` guard sends
to the same branch); the `""` test models Python's falsy-string check. -/
def extract_category (text : Option String) : String × ℚ :=
  match text with
  | none => ("Outros", 0)
  | some s =>
    if s = "" then ("Outros", 0)
    else
      let t := pyLower s.toList
      match categoryScores t with
      | [] => ("Outros", 0)
      | p :: ps =>
        let best := pyMaxBy p ps
        (best.1, min ((best.2 : ℚ) / 3) 1)

/-! ## `ChurnDetector` (`churn_detector.py`) -/

def CHURN_ALTA : List String :=
  ["nunca mais", "não compro", "não volto", "péssimo", "golpe",
   "fraude", "processarei", "procon", "juizado", "reclame aqui",
   "cancelei", "devolvi", "não recomendo", "horrível", "lixo",
   "pior compra", "arrependimento total", "dinheiro jogado fora"]

def CHURN_MEDIA : List String :=
  ["decepcionado", "decepção", "arrependido", "arrependimento",
   "não vale", "não recomendo", "insatisfeito", "frustrado",
   "esperava mais", "propaganda enganosa", "mentira", "enganação",
   "não presta", "muito ruim", "mal feito"]

def CHURN_BAIXA : List String :=
  ["poderia ser melhor", "esperava mais", "deixou a desejar",
   "não é o que parece", "não gostei", "não atendeu",
   "demora", "demorado", "atraso", "atrasado"]

def PROBLEM_ASPECTS : List (String × List String) :=
  [("qualidade",
    ["quebrou", "defeito", "quebrado", "estragou", "não funciona",
     "parou de funcionar", "ruim", "fraco", "frágil", "mal feito"]),
   ("entrega",
    ["não chegou", "não recebi", "atraso", "demora", "perdido",
     "extraviado", "atrasado", "prazo", "não entregaram"]),
   ("atendimento",
    ["não respondem", "mal atendido", "grosseiro", "não resolve",
     "não ajuda", "ignoram", "não atende", "péssimo atendimento"]),
   ("preco",
    ["caro demais", "muito caro", "não vale o preço", "superfaturado",
     "abuso", "preço abusivo", "cobrou a mais"])]

/-- Python `round(x, 2)`, exactly on ℚ.  The source rounds a float
half-to-even; every score produced by the two scorers is a multiple of
1/10, where the two roundings agree (and `round2` is the identity). -/
def round2 (q : ℚ) : ℚ :=
  ((round (q * 100) : ℤ) : ℚ) / 100

/-- The rating adjustment of `detect_churn_risk`: `*1.5` for ratings ≤ 2
and `*1.2` for rating 3. -/
def ratingAdjust (rating : ℤ) (score : ℚ) : ℚ :=
  if rating ≤ 2 then score * 1.5
  else if rating = 3 then score * 1.2
  else score

/-- `ChurnDetector._classify_risk`. -/
def classify_risk (churn_score : ℚ) (rating : ℤ) (sentiment : String) : String :=
  if sentiment = "positivo" ∧ rating ≥ 4 then "sem_risco"
  else if churn_score ≥ 40 ∨ (rating ≤ 2 ∧ churn_score ≥ 20) then "alto_risco"
  else if churn_score ≥ 20 ∨ (rating = 3 ∧ churn_score ≥ 10) then "medio_risco"
  else if churn_score > 0 ∨ rating ≤ 3 then "baixo_risco"
  else "sem_risco"

/-- `ChurnDetector._detect_problem_aspects`. -/
def detect_problem_aspects (t : List Char) : List String :=
  (PROBLEM_ASPECTS.filter (fun p => p.2.any (fun kw => containsSub kw t))).map Prod.fst

/-- `ChurnDetector._extract_main_reasons`: walk the high tier collecting
matches up to three, then the medium tier, then the low tier.  A loop that
appends and breaks once three reasons are collected is a `take` of the
filtered table. -/
def extract_main_reasons (t : List Char) (alta media baixa : ℕ) : List String :=
  let r1 := if alta > 0 then (CHURN_ALTA.filter (fun s => containsSub s t)).take 3 else []
  let r2 :=
    if r1.length < 3 ∧ media > 0 then
      r1 ++ (CHURN_MEDIA.filter (fun s => containsSub s t)).take (3 - r1.length)
    else r1
  let r3 :=
    if r2.length < 3 ∧ baixa > 0 then
      r2 ++ (CHURN_BAIXA.filter (fun s => containsSub s t)).take (3 - r2.length)
    else r2
  r3.take 3

structure ChurnResult where
  churn_score : ℚ
  risk_level : String
  problem_aspects : List String
  main_reasons : List String
  alta_gravidade : ℕ
  media_gravidade : ℕ
  baixa_gravidade : ℕ
  is_critical : Bool
deriving DecidableEq

/-- `ChurnDetector._no_risk_result`. -/
def no_risk_result : ChurnResult :=
  { churn_score := 0
    risk_level := "sem_risco"
    problem_aspects := []
    main_reasons := []
    alta_gravidade := 0
    media_gravidade := 0
    baixa_gravidade := 0
    is_critical := false }

/-- The score arithmetic of `detect_churn_risk` as a function of the three
tier counts: `min(alta*30 + media*15 + baixa*5, 100)`, rating adjustment,
`min(_, 100)` again. -/
def churn_formula (alta media baixa : ℕ) (rating : ℤ) : ℚ :=
  min (ratingAdjust rating (min ((alta * 30 + media * 15 + baixa * 5 : ℕ) : ℚ) 100)) 100

/-- `ChurnDetector.detect_churn_risk`.  `none` models Python `None` (and
any non-string input); the `""` test models the falsy-string guard of
`if not text or not isinstance(text, str)`. -/
def detect_churn_risk (text : Option String) (rating : ℤ) (sentiment : String) : ChurnResult :=
  match text with
  | none => no_risk_result
  | some s =>
    if s = "" then no_risk_result
    else
      let t := pyLower s.toList
      let alta := countSignals CHURN_ALTA t
      let media := countSignals CHURN_MEDIA t
      let baixa := countSignals CHURN_BAIXA t
      let score := churn_formula alta media baixa rating
      let risk := classify_risk score rating sentiment
      { churn_score := round2 score
        risk_level := risk
        problem_aspects := detect_problem_aspects t
        main_reasons := extract_main_reasons t alta media baixa
        alta_gravidade := alta
        media_gravidade := media
        baixa_gravidade := baixa
        is_critical := risk == "alto_risco" }

/-! ## `OpportunityFinder` (`opportunity_finder.py`) -/

def UPSELL_SIGNALS : List String :=
  ["vou comprar", "comprarei", "quero comprar", "vou pegar",
   "versão maior", "modelo maior", "próxima compra", "quero outro",
   "precisando de outro", "comprar mais", "já estou de olho",
   "próximo será", "vou trocar por"]

def CROSS_SELL_SIGNALS : List String :=
  ["combina com", "agora preciso", "falta só", "vou comprar também",
   "agora falta", "próximo passo", "agora quero", "complementa",
   "junto com", "para acompanhar", "pensando em pegar"]

def LOYALTY_SIGNALS : List String :=
  ["sempre compro", "cliente fiel", "toda vez", "compro sempre",
   "já é a segunda", "já é o terceiro", "compro todo mês",
   "cliente há anos", "confio", "só compro aqui", "minha marca favorita",
   "não troco", "única loja", "só compro dessa marca"]

def BRAND_ADVOCATE_SIGNALS : List String :=
  ["indiquei", "recomendo", "recomendei", "toda família", "todos da família",
   "todo mundo", "já indiquei", "super recomendo", "recomendo muito",
   "indico", "todo mundo deveria", "todos deveriam", "melhor que existe",
   "não existe melhor", "compartilhei", "mostrei para", "convenci"]

def EXCEPTIONAL_SATISFACTION : List String :=
  ["superou", "excedeu", "além das expectativas", "melhor que esperado",
   "surpreendeu", "impressionado", "incrível", "perfeito", "impecável",
   "maravilhoso", "sensacional", "fantástico", "excepcional"]

/-- The rating bonus of `find_opportunities`: `*1.3` for rating 5 and
`*1.1` for rating 4. -/
def ratingBonus (rating : ℤ) (score : ℚ) : ℚ :=
  if rating = 5 then score * 1.3
  else if rating = 4 then score * 1.1
  else score

/-- The score arithmetic of `find_opportunities` as a function of the five
signal counts: weighted sum, rating bonus, `min(_, 100)`. -/
def opportunity_formula (upsell cross loyalty advocate exceptional : ℕ) (rating : ℤ) : ℚ :=
  min (ratingBonus rating
        ((upsell * 20 + cross * 15 + loyalty * 25 + advocate * 30 + exceptional * 10 : ℕ) : ℚ))
    100

/-- `OpportunityFinder._classify_opportunity`. -/
def classify_opportunity (score : ℚ) (rating : ℤ) (sentiment : String) : String :=
  if sentiment = "negativo" ∨ rating < 4 then "sem_oportunidade"
  else if score ≥ 50 ∨ (rating = 5 ∧ score ≥ 30) then "alta_oportunidade"
  else if score ≥ 25 ∨ (rating = 5 ∧ score ≥ 15) then "media_oportunidade"
  else if score > 0 then "baixa_oportunidade"
  else "sem_oportunidade"

/-- `OpportunityFinder._identify_opportunity_types`. -/
def identify_opportunity_types (upsell cross loyalty advocate exceptional : ℕ) : List String :=
  (if upsell > 0 then ["upsell"] else []) ++
  (if cross > 0 then ["cross_sell"] else []) ++
  (if loyalty > 0 then ["fidelidade"] else []) ++
  (if advocate > 0 then ["advogado_marca"] else []) ++
  (if exceptional > 0 then ["satisfacao_excepcional"] else [])

/-- `OpportunityFinder._profile_customer`. -/
def profile_customer (loyalty advocate exceptional : ℕ) : String :=
  if advocate ≥ 2 ∨ (advocate ≥ 1 ∧ loyalty ≥ 1) then "advogado_marca"
  else if loyalty ≥ 2 ∨ (loyalty ≥ 1 ∧ exceptional ≥ 1) then "cliente_fiel"
  else if exceptional ≥ 2 then "altamente_satisfeito"
  else if loyalty + advocate + exceptional > 0 then "cliente_satisfeito"
  else "cliente_comum"

structure OpportunityResult where
  opportunity_score : ℚ
  opportunity_level : String
  opportunity_types : List String
  customer_profile : String
  upsell : ℕ
  cross_sell : ℕ
  loyalty : ℕ
  brand_advocate : ℕ
  exceptional_satisfaction : ℕ
  is_high_value : Bool
deriving DecidableEq

/-- `OpportunityFinder._no_opportunity_result`. -/
def no_opportunity_result : OpportunityResult :=
  { opportunity_score := 0
    opportunity_level := "sem_oportunidade"
    opportunity_types := []
    customer_profile := "cliente_comum"
    upsell := 0
    cross_sell := 0
    loyalty := 0
    brand_advocate := 0
    exceptional_satisfaction := 0
    is_high_value := false }

/-- `OpportunityFinder.find_opportunities`. -/
def find_opportunities (text : Option String) (rating : ℤ) (sentiment : String) :
    OpportunityResult :=
  match text with
  | none => no_opportunity_result
  | some s =>
    if s = "" then no_opportunity_result
    else
      let t := pyLower s.toList
      let upsell := countSignals UPSELL_SIGNALS t
      let cross := countSignals CROSS_SELL_SIGNALS t
      let loyalty := countSignals LOYALTY_SIGNALS t
      let advocate := countSignals BRAND_ADVOCATE_SIGNALS t
      let exceptional := countSignals EXCEPTIONAL_SATISFACTION t
      let score := opportunity_formula upsell cross loyalty advocate exceptional rating
      let level := classify_opportunity score rating sentiment
      { opportunity_score := round2 score
        opportunity_level := level
        opportunity_types := identify_opportunity_types upsell cross loyalty advocate exceptional
        customer_profile := profile_customer loyalty advocate exceptional
        upsell := upsell
        cross_sell := cross
        loyalty := loyalty
        brand_advocate := advocate
        exceptional_satisfaction := exceptional
        is_high_value := level == "alta_oportunidade" }

/-! ## Spec-side definition for the level cascade (claim C6)

Written from the spec's words ("first matching rule wins" over the four
rules), to be compared with the code-side `classify_opportunity`. -/

/-- The opportunity-level rule cascade exactly as the specification states
it: (a) negative sentiment or rating < 4 gives no opportunity; (b) score
at least 50, or rating 5 with score at least 30, gives high; (c) score at
least 25, or rating 5 with score at least 15, gives medium; (d) positive
score gives low; (e) otherwise none. -/
def specOpportunityLevel (score : ℚ) (rating : ℤ) (sentiment : String) : String :=
  if sentiment = "negativo" ∨ rating < 4 then "sem_oportunidade"
  else if score ≥ 50 ∨ (rating = 5 ∧ score ≥ 30) then "alta_oportunidade"
  else if score ≥ 25 ∨ (rating = 5 ∧ score ≥ 15) then "media_oportunidade"
  else if score > 0 then "baixa_oportunidade"
  else "sem_oportunidade"

/-! ## Structural invariants of the cleaning pipeline (for claim C1) -/

theorem detect_churn_risk_some (s : String) (h : ¬s = "") (r : ℤ) (sent : String) :
    detect_churn_risk (some s) r sent =
      { churn_score := round2 (churn_formula (countSignals CHURN_ALTA (pyLower s.toList))
          (countSignals CHURN_MEDIA (pyLower s.toList))
          (countSignals CHURN_BAIXA (pyLower s.toList)) r)
        risk_level := classify_risk (churn_formula (countSignals CHURN_ALTA (pyLower s.toList))
          (countSignals CHURN_MEDIA (pyLower s.toList))
          (countSignals CHURN_BAIXA (pyLower s.toList)) r) r sent
        problem_aspects := detect_problem_aspects (pyLower s.toList)
        main_reasons := extract_main_reasons (pyLower s.toList)
          (countSignals CHURN_ALTA (pyLower s.toList))
          (countSignals CHURN_MEDIA (pyLower s.toList))
          (countSignals CHURN_BAIXA (pyLower s.toList))
        alta_gravidade := countSignals CHURN_ALTA (pyLower s.toList)
        media_gravidade := countSignals CHURN_MEDIA (pyLower s.toList)
        baixa_gravidade := countSignals CHURN_BAIXA (pyLower s.toList)
        is_critical := (classify_risk (churn_formula (countSignals CHURN_ALTA (pyLower s.toList))
          (countSignals CHURN_MEDIA (pyLower s.toList))
          (countSignals CHURN_BAIXA (pyLower s.toList)) r) r sent) == "alto_risco" } := by
  simp only [detect_churn_risk, if_neg h]

theorem find_opportunities_some (s : String) (h : ¬s = "") (r : ℤ) (sent : String) :
    find_opportunities (some s) r sent =
      { opportunity_score := round2 (opportunity_formula
          (countSignals UPSELL_SIGNALS (pyLower s.toList))
          (countSignals CROSS_SELL_SIGNALS (pyLower s.toList))
          (countSignals LOYALTY_SIGNALS (pyLower s.toList))
          (countSignals BRAND_ADVOCATE_SIGNALS (pyLower s.toList))
          (countSignals EXCEPTIONAL_SATISFACTION (pyLower s.toList)) r)
        opportunity_level := classify_opportunity (opportunity_formula
          (countSignals UPSELL_SIGNALS (pyLower s.toList))
          (countSignals CROSS_SELL_SIGNALS (pyLower s.toList))
          (countSignals LOYALTY_SIGNALS (pyLower s.toList))
          (countSignals BRAND_ADVOCATE_SIGNALS (pyLower s.toList))
          (countSignals EXCEPTIONAL_SATISFACTION (pyLower s.toList)) r) r sent
        opportunity_types := identify_opportunity_types
          (countSignals UPSELL_SIGNALS (pyLower s.toList))
          (countSignals CROSS_SELL_SIGNALS (pyLower s.toList))
          (countSignals LOYALTY_SIGNALS (pyLower s.toList))
          (countSignals BRAND_ADVOCATE_SIGNALS (pyLower s.toList))
          (countSignals EXCEPTIONAL_SATISFACTION (pyLower s.toList))
        customer_profile := profile_customer
          (countSignals LOYALTY_SIGNALS (pyLower s.toList))
          (countSignals BRAND_ADVOCATE_SIGNALS (pyLower s.toList))
          (countSignals EXCEPTIONAL_SATISFACTION (pyLower s.toList))
        upsell := countSignals UPSELL_SIGNALS (pyLower s.toList)
        cross_sell := countSignals CROSS_SELL_SIGNALS (pyLower s.toList)
        loyalty := countSignals LOYALTY_SIGNALS (pyLower s.toList)
        brand_advocate := countSignals BRAND_ADVOCATE_SIGNALS (pyLower s.toList)
        exceptional_satisfaction := countSignals EXCEPTIONAL_SATISFACTION (pyLower s.toList)
        is_high_value := (classify_opportunity (opportunity_formula
          (countSignals UPSELL_SIGNALS (pyLower s.toList))
          (countSignals CROSS_SELL_SIGNALS (pyLower s.toList))
          (countSignals LOYALTY_SIGNALS (pyLower s.toList))
          (countSignals BRAND_ADVOCATE_SIGNALS (pyLower s.toList))
          (countSignals EXCEPTIONAL_SATISFACTION (pyLower s.toList)) r) r sent)
            == "alta_oportunidade" } := by
  simp only [find_opportunities, if_neg h]

theorem extract_category_some (s : String) (h : ¬s = "") :
    extract_category (some s) =
      (match categoryScores (pyLower s.toList) with
       | [] => ("Outros", (0 : ℚ))
       | p :: ps => ((pyMaxBy p ps).1, min (((pyMaxBy p ps).2 : ℚ) / 3) 1)) := by
  simp only [extract_category, if_neg h]

theorem round2_tenth (k : ℤ) : round2 ((k : ℚ) / 10) = (k : ℚ) / 10 := by
  unfold round2
  have h : ((k : ℚ) / 10) * 100 = ((10 * k : ℤ) : ℚ) := by push_cast; ring
  rw [h, round_intCast]
  push_cast
  ring

theorem ratingAdjust_factor (r : ℤ) : ∃ F : ℚ, 1 ≤ F ∧ ∀ x : ℚ, ratingAdjust r x = x * F := by
  unfold ratingAdjust
  by_cases h1 : r ≤ 2
  · exact ⟨1.5, by norm_num, fun x => by rw [if_pos h1]⟩
  · by_cases h2 : r = 3
    · exact ⟨1.2, by norm_num, fun x => by rw [if_neg h1, if_pos h2]⟩
    · exact ⟨1, by norm_num, fun x => by rw [if_neg h1, if_neg h2, mul_one]⟩

theorem ratingBonus_factor (r : ℤ) : ∃ F : ℚ, 1 ≤ F ∧ ∀ x : ℚ, ratingBonus r x = x * F := by
  unfold ratingBonus
  by_cases h1 : r = 5
  · exact ⟨1.3, by norm_num, fun x => by rw [if_pos h1]⟩
  · by_cases h2 : r = 4
    · exact ⟨1.1, by norm_num, fun x => by rw [if_neg h1, if_pos h2]⟩
    · exact ⟨1, by norm_num, fun x => by rw [if_neg h1, if_neg h2, mul_one]⟩

theorem min_nat_cast_100 (N : ℕ) : min ((N : ℚ)) 100 = ((min N 100 : ℕ) : ℚ) := by
  push_cast
  rfl

/-- Every churn score is `k/10` for an integer `0 ≤ k ≤ 1000`: the base is
an integer clamped to 100 and the factors 1.5, 1.2, 1 have denominators
dividing 10. -/
theorem churn_formula_repr (a m b : ℕ) (r : ℤ) :
    ∃ k : ℤ, churn_formula a m b r = (k : ℚ) / 10 ∧ 0 ≤ k ∧ k ≤ 1000 := by
  unfold churn_formula
  obtain ⟨F, hF1, hFx⟩ := ratingAdjust_factor r
  rw [min_nat_cast_100, hFx]
  set M : ℕ := min (a * 30 + m * 15 + b * 5) 100 with hM
  obtain ⟨p, hp0, hp10, hpF⟩ : ∃ p : ℤ, 0 ≤ p ∧ p ≤ 15 ∧ F = (p : ℚ) / 10 := by
    unfold ratingAdjust at hFx
    by_cases h1 : r ≤ 2
    · refine ⟨15, by norm_num, by norm_num, ?_⟩
      have h15 := hFx 1
      rw [if_pos h1] at h15
      push_cast
      linarith [h15]
    · by_cases h2 : r = 3
      · refine ⟨12, by norm_num, by norm_num, ?_⟩
        have h15 := hFx 1
        rw [if_neg h1, if_pos h2] at h15
        push_cast
        linarith [h15]
      · refine ⟨10, by norm_num, by norm_num, ?_⟩
        have h15 := hFx 1
        rw [if_neg h1, if_neg h2] at h15
        push_cast
        linarith [h15]
  refine ⟨min ((M : ℤ) * p) 1000, ?_, ?_, ?_⟩
  · rw [hpF]
    have h100 : (100 : ℚ) = ((1000 : ℤ) : ℚ) / 10 := by norm_num
    have hMp : (M : ℚ) * ((p : ℚ) / 10) = (((M : ℤ) * p : ℤ) : ℚ) / 10 := by
      push_cast
      ring
    rw [h100, hMp, min_div_div_right (by norm_num : (0 : ℚ) ≤ 10)]
    push_cast
    ring_nf
  · positivity
  · have hM100 : (M : ℤ) ≤ 100 := by
      have : M ≤ 100 := Nat.min_le_right _ _
      exact_mod_cast this
    have : (M : ℤ) * p ≤ 100 * 15 := by
      apply mul_le_mul hM100 hp10 hp0
      norm_num
    omega

/-- Every opportunity score is `k/10` for an integer `0 ≤ k ≤ 1000`. -/
theorem opportunity_formula_repr (u c l a e : ℕ) (r : ℤ) :
    ∃ k : ℤ, opportunity_formula u c l a e r = (k : ℚ) / 10 ∧ 0 ≤ k ∧ k ≤ 1000 := by
  unfold opportunity_formula
  obtain ⟨F, hF1, hFx⟩ := ratingBonus_factor r
  rw [hFx]
  set N : ℕ := u * 20 + c * 15 + l * 25 + a * 30 + e * 10 with hN
  obtain ⟨p, hp0, hp13, hpF⟩ : ∃ p : ℤ, 0 ≤ p ∧ p ≤ 13 ∧ F = (p : ℚ) / 10 := by
    unfold ratingBonus at hFx
    by_cases h1 : r = 5
    · refine ⟨13, by norm_num, by norm_num, ?_⟩
      have h15 := hFx 1
      rw [if_pos h1] at h15
      push_cast
      linarith [h15]
    · by_cases h2 : r = 4
      · refine ⟨11, by norm_num, by norm_num, ?_⟩
        have h15 := hFx 1
        rw [if_neg h1, if_pos h2] at h15
        push_cast
        linarith [h15]
      · refine ⟨10, by norm_num, by norm_num, ?_⟩
        have h15 := hFx 1
        rw [if_neg h1, if_neg h2] at h15
        push_cast
        linarith [h15]
  refine ⟨min ((N : ℤ) * p) 1000, ?_, ?_, ?_⟩
  · rw [hpF]
    have h100 : (100 : ℚ) = ((1000 : ℤ) : ℚ) / 10 := by norm_num
    have hNp : (N : ℚ) * ((p : ℚ) / 10) = (((N : ℤ) * p : ℤ) : ℚ) / 10 := by
      push_cast
      ring
    rw [h100, hNp, min_div_div_right (by norm_num : (0 : ℚ) ≤ 10)]
    push_cast
    ring_nf
  · positivity
  · exact le_trans (min_le_right _ _) (by norm_num)

/-- The `churn_score` field equals the unrounded formula on the counted
signals (the rounding is the identity on multiples of 1/10); also valid
for the empty string, where both sides are 0. -/
theorem detect_churn_score_eq (s : String) (r : ℤ) (sent : String) :
    (detect_churn_risk (some s) r sent).churn_score =
      churn_formula (countSignals CHURN_ALTA (pyLower s.toList))
        (countSignals CHURN_MEDIA (pyLower s.toList))
        (countSignals CHURN_BAIXA (pyLower s.toList)) r := by
  by_cases h : s = ""
  · subst h
    have h1 : countSignals CHURN_ALTA (pyLower "".toList) = 0 := by decide
    have h2 : countSignals CHURN_MEDIA (pyLower "".toList) = 0 := by decide
    have h3 : countSignals CHURN_BAIXA (pyLower "".toList) = 0 := by decide
    rw [h1, h2, h3]
    have hres : detect_churn_risk (some "") r sent = no_risk_result := by
      simp [detect_churn_risk]
    have hzero : churn_formula 0 0 0 r = 0 := by
      unfold churn_formula ratingAdjust
      split_ifs <;> norm_num
    rw [hres, hzero]
    rfl
  · rw [detect_churn_risk_some s h r sent]
    obtain ⟨k, hk, _, _⟩ := churn_formula_repr (countSignals CHURN_ALTA (pyLower s.toList))
      (countSignals CHURN_MEDIA (pyLower s.toList))
      (countSignals CHURN_BAIXA (pyLower s.toList)) r
    dsimp only
    rw [hk, round2_tenth]

theorem classify_opportunity_zero (r : ℤ) (s : String) :
    classify_opportunity 0 r s = "sem_oportunidade" := by
  unfold classify_opportunity
  split_ifs with h1 h2 h3 h4
  · rfl
  · rcases h2 with h | ⟨_, h⟩ <;> norm_num at h
  · rcases h3 with h | ⟨_, h⟩ <;> norm_num at h
  · norm_num at h4
  · rfl

/-- The spec-side cascade and the code-side classifier coincide. -/
theorem spec_level_eq_code (x : ℚ) (r : ℤ) (s : String) :
    specOpportunityLevel x r s = classify_opportunity x r s := rfl

theorem find_opportunity_score_eq (s : String) (r : ℤ) (sent : String) :
    (find_opportunities (some s) r sent).opportunity_score =
      opportunity_formula (countSignals UPSELL_SIGNALS (pyLower s.toList))
        (countSignals CROSS_SELL_SIGNALS (pyLower s.toList))
        (countSignals LOYALTY_SIGNALS (pyLower s.toList))
        (countSignals BRAND_ADVOCATE_SIGNALS (pyLower s.toList))
        (countSignals EXCEPTIONAL_SATISFACTION (pyLower s.toList)) r := by
  by_cases h : s = ""
  · subst h
    have h1 : countSignals UPSELL_SIGNALS (pyLower "".toList) = 0 := by decide
    have h2 : countSignals CROSS_SELL_SIGNALS (pyLower "".toList) = 0 := by decide
    have h3 : countSignals LOYALTY_SIGNALS (pyLower "".toList) = 0 := by decide
    have h4 : countSignals BRAND_ADVOCATE_SIGNALS (pyLower "".toList) = 0 := by decide
    have h5 : countSignals EXCEPTIONAL_SATISFACTION (pyLower "".toList) = 0 := by decide
    rw [h1, h2, h3, h4, h5]
    have hres : find_opportunities (some "") r sent = no_opportunity_result := by
      simp [find_opportunities]
    have hzero : opportunity_formula 0 0 0 0 0 r = 0 := by
      unfold opportunity_formula ratingBonus
      split_ifs <;> norm_num
    rw [hres, hzero]
    rfl
  · rw [find_opportunities_some s h r sent]
    obtain ⟨k, hk, _, _⟩ := opportunity_formula_repr
      (countSignals UPSELL_SIGNALS (pyLower s.toList))
      (countSignals CROSS_SELL_SIGNALS (pyLower s.toList))
      (countSignals LOYALTY_SIGNALS (pyLower s.toList))
      (countSignals BRAND_ADVOCATE_SIGNALS (pyLower s.toList))
      (countSignals EXCEPTIONAL_SATISFACTION (pyLower s.toList)) r
    dsimp only
    rw [hk, round2_tenth]

theorem find_opportunity_level_eq (s : String) (r : ℤ) (sent : String) :
    (find_opportunities (some s) r sent).opportunity_level =
      classify_opportunity
        (opportunity_formula (countSignals UPSELL_SIGNALS (pyLower s.toList))
          (countSignals CROSS_SELL_SIGNALS (pyLower s.toList))
          (countSignals LOYALTY_SIGNALS (pyLower s.toList))
          (countSignals BRAND_ADVOCATE_SIGNALS (pyLower s.toList))
          (countSignals EXCEPTIONAL_SATISFACTION (pyLower s.toList)) r) r sent := by
  by_cases h : s = ""
  · subst h
    have h1 : countSignals UPSELL_SIGNALS (pyLower "".toList) = 0 := by decide
    have h2 : countSignals CROSS_SELL_SIGNALS (pyLower "".toList) = 0 := by decide
    have h3 : countSignals LOYALTY_SIGNALS (pyLower "".toList) = 0 := by decide
    have h4 : countSignals BRAND_ADVOCATE_SIGNALS (pyLower "".toList) = 0 := by decide
    have h5 : countSignals EXCEPTIONAL_SATISFACTION (pyLower "".toList) = 0 := by decide
    rw [h1, h2, h3, h4, h5]
    have hres : find_opportunities (some "") r sent = no_opportunity_result := by
      simp [find_opportunities]
    have hzero : opportunity_formula 0 0 0 0 0 r = 0 := by
      unfold opportunity_formula ratingBonus
      split_ifs <;> norm_num
    rw [hres, hzero, classify_opportunity_zero]
    rfl
  · rw [find_opportunities_some s h r sent]

/-! ## Claim theorems C2, C4, C5, C6, C7, C9, C10 -/

/-- C2: for every input triple (text, rating, sentiment) — the text
universally quantified, hence including arbitrarily many repeated keyword
occurrences — the churn score of `detect_churn_risk` and the opportunity
score of `find_opportunities` both lie in the closed interval [0, 100]. -/
theorem scores_bounded (text : Option String) (r : ℤ) (s : String) :
    (0 ≤ (detect_churn_risk text r s).churn_score ∧
      (detect_churn_risk text r s).churn_score ≤ 100) ∧
    (0 ≤ (find_opportunities text r s).opportunity_score ∧
      (find_opportunities text r s).opportunity_score ≤ 100) := by
  constructor
  · cases text with
    | none =>
      constructor
      · exact le_refl 0
      · show (0 : ℚ) ≤ 100
        norm_num
    | some str =>
      rw [detect_churn_score_eq]
      obtain ⟨k, hk, h0, h1⟩ := churn_formula_repr
        (countSignals CHURN_ALTA (pyLower str.toList))
        (countSignals CHURN_MEDIA (pyLower str.toList))
        (countSignals CHURN_BAIXA (pyLower str.toList)) r
      rw [hk]
      constructor
      · apply div_nonneg _ (by norm_num)
        exact_mod_cast h0
      · rw [div_le_iff₀ (by norm_num : (0 : ℚ) < 10)]
        calc (k : ℚ) ≤ 1000 := by exact_mod_cast h1
        _ = 100 * 10 := by norm_num
  · cases text with
    | none =>
      constructor
      · exact le_refl 0
      · show (0 : ℚ) ≤ 100
        norm_num
    | some str =>
      rw [find_opportunity_score_eq]
      obtain ⟨k, hk, h0, h1⟩ := opportunity_formula_repr
        (countSignals UPSELL_SIGNALS (pyLower str.toList))
        (countSignals CROSS_SELL_SIGNALS (pyLower str.toList))
        (countSignals LOYALTY_SIGNALS (pyLower str.toList))
        (countSignals BRAND_ADVOCATE_SIGNALS (pyLower str.toList))
        (countSignals EXCEPTIONAL_SATISFACTION (pyLower str.toList)) r
      rw [hk]
      constructor
      · apply div_nonneg _ (by norm_num)
        exact_mod_cast h0
      · rw [div_le_iff₀ (by norm_num : (0 : ℚ) < 10)]
        calc (k : ℚ) ≤ 1000 := by exact_mod_cast h1
        _ = 100 * 10 := by norm_num

/-- C4: on the text "Produto horrível, nunca mais compro, quero processar
essa empresa no procon" with rating 1 and sentiment negativo, the detector
reports risk level alto_risco and churn score exactly 100: the three
high-tier matches (nunca mais, horrível, procon) score 90, the rating ≤ 2
multiplier 1.5 raises it to 135, and the final clamp caps it at 100. -/
theorem churn_scenario_procon :
    (detect_churn_risk
      (some "Produto horrível, nunca mais compro, quero processar essa empresa no procon")
      1 "negativo").churn_score = 100 ∧
    (detect_churn_risk
      (some "Produto horrível, nunca mais compro, quero processar essa empresa no procon")
      1 "negativo").risk_level = "alto_risco" ∧
    (detect_churn_risk
      (some "Produto horrível, nunca mais compro, quero processar essa empresa no procon")
      1 "negativo").alta_gravidade = 3 ∧
    (detect_churn_risk
      (some "Produto horrível, nunca mais compro, quero processar essa empresa no procon")
      1 "negativo").media_gravidade = 0 ∧
    (detect_churn_risk
      (some "Produto horrível, nunca mais compro, quero processar essa empresa no procon")
      1 "negativo").baixa_gravidade = 0 := by
  have h1 : countSignals CHURN_ALTA (pyLower
      ("Produto horrível, nunca mais compro, quero processar essa empresa no procon"
        : String).toList) = 3 := by decide
  have h2 : countSignals CHURN_MEDIA (pyLower
      ("Produto horrível, nunca mais compro, quero processar essa empresa no procon"
        : String).toList) = 0 := by decide
  have h3 : countSignals CHURN_BAIXA (pyLower
      ("Produto horrível, nunca mais compro, quero processar essa empresa no procon"
        : String).toList) = 0 := by decide
  have hf : churn_formula 3 0 0 1 = 100 := by
    norm_num [churn_formula, ratingAdjust, min_nat_cast_100]
  have hrisk : classify_risk 100 1 "negativo" = "alto_risco" := by
    norm_num [classify_risk]
  rw [detect_churn_risk_some _ (by decide)]
  dsimp only
  rw [h1, h2, h3, hf, hrisk]
  refine ⟨?_, rfl, rfl, rfl, rfl⟩
  norm_num [round2]

/-- C5: a null text never fails and produces the documented zero-results:
churn score 0 with risk level sem_risco and empty aspect/reason lists,
opportunity score 0 with level sem_oportunidade and profile cliente_comum,
and category ("Outros", 0), for every rating and sentiment. -/
theorem null_inputs_zero_results (r : ℤ) (s : String) :
    (detect_churn_risk none r s).churn_score = 0 ∧
    (detect_churn_risk none r s).risk_level = "sem_risco" ∧
    (detect_churn_risk none r s).problem_aspects = [] ∧
    (detect_churn_risk none r s).main_reasons = [] ∧
    (find_opportunities none r s).opportunity_score = 0 ∧
    (find_opportunities none r s).opportunity_level = "sem_oportunidade" ∧
    (find_opportunities none r s).customer_profile = "cliente_comum" ∧
    extract_category none = ("Outros", 0) :=
  ⟨rfl, rfl, rfl, rfl, rfl, rfl, rfl, rfl⟩

/-- C6: the opportunity level reported by `find_opportunities` is exactly
the spec's first-matching-rule cascade applied to the reported score, the
rating and the sentiment — including on the null/empty-text path, where
both sides give sem_oportunidade. -/
theorem opportunity_level_rule_cascade (text : Option String) (r : ℤ) (s : String) :
    (find_opportunities text r s).opportunity_level =
      specOpportunityLevel ((find_opportunities text r s).opportunity_score) r s := by
  cases text with
  | none =>
    show "sem_oportunidade" = specOpportunityLevel 0 r s
    rw [spec_level_eq_code, classify_opportunity_zero]
  | some str =>
    rw [find_opportunity_level_eq, find_opportunity_score_eq, spec_level_eq_code]

/-- C7 (arithmetic core): the churn-score formula is monotone when the
high-tier count strictly increases and the other tier counts do not
decrease; the scores can only coincide at the 100 clamp. -/
theorem churn_formula_mono (a m b a2 m2 b2 : ℕ) (r : ℤ)
    (ha : a < a2) (hm : m ≤ m2) (hb : b ≤ b2) :
    churn_formula a m b r ≤ churn_formula a2 m2 b2 r ∧
    (churn_formula a2 m2 b2 r = churn_formula a m b r →
      churn_formula a2 m2 b2 r = 100) := by
  obtain ⟨F, hF1, hFx⟩ := ratingAdjust_factor r
  have hF0 : (0 : ℚ) < F := lt_of_lt_of_le one_pos hF1
  unfold churn_formula
  rw [hFx, hFx, min_nat_cast_100, min_nat_cast_100]
  set N : ℕ := a * 30 + m * 15 + b * 5 with hN
  set N2 : ℕ := a2 * 30 + m2 * 15 + b2 * 5 with hN2
  have hNN : N + 30 ≤ N2 := by omega
  set M : ℕ := min N 100 with hM
  set M2 : ℕ := min N2 100 with hM2
  have hMM : M ≤ M2 := by omega
  constructor
  · apply min_le_min _ le_rfl
    apply mul_le_mul_of_nonneg_right _ (le_of_lt hF0)
    exact_mod_cast hMM
  · intro heq
    by_contra hne
    have hlt2 : min ((M2 : ℚ) * F) 100 < 100 :=
      lt_of_le_of_ne (min_le_right _ _) hne
    have hM2F : (M2 : ℚ) * F < 100 := by
      by_contra hge
      push_neg at hge
      rw [min_eq_right hge] at hlt2
      exact lt_irrefl _ hlt2
    have e2 : min ((M2 : ℚ) * F) 100 = (M2 : ℚ) * F := min_eq_left (le_of_lt hM2F)
    have hM2lt : (M2 : ℚ) < 100 := by
      have hx : (M2 : ℚ) * 1 ≤ (M2 : ℚ) * F :=
        mul_le_mul_of_nonneg_left hF1 (by positivity)
      rw [mul_one] at hx
      linarith
    have hM2n : M2 < 100 := by exact_mod_cast hM2lt
    have hMlt : M < M2 := by omega
    have hMF : (M : ℚ) * F < (M2 : ℚ) * F := by
      apply mul_lt_mul_of_pos_right _ hF0
      exact_mod_cast hMlt
    have hlt1 : min ((M : ℚ) * F) 100 < (M2 : ℚ) * F :=
      lt_of_le_of_lt (min_le_left _ _) hMF
    rw [e2] at heq
    rw [← heq] at hlt1
    exact lt_irrefl _ hlt1

/-- C7: if `t2` matches at least as many distinct phrases as `t` in every
churn-severity tier and strictly more in the high tier, then (for the same
rating and sentiment) its churn score is at least that of `t`, with
equality possible only at the 100 clamp. -/
theorem churn_score_monotone_in_high_signals (t t2 : String) (r : ℤ) (s : String)
    (ha : countSignals CHURN_ALTA (pyLower t.toList) <
      countSignals CHURN_ALTA (pyLower t2.toList))
    (hm : countSignals CHURN_MEDIA (pyLower t.toList) ≤
      countSignals CHURN_MEDIA (pyLower t2.toList))
    (hb : countSignals CHURN_BAIXA (pyLower t.toList) ≤
      countSignals CHURN_BAIXA (pyLower t2.toList)) :
    (detect_churn_risk (some t) r s).churn_score ≤
      (detect_churn_risk (some t2) r s).churn_score ∧
    ((detect_churn_risk (some t2) r s).churn_score =
        (detect_churn_risk (some t) r s).churn_score →
      (detect_churn_risk (some t2) r s).churn_score = 100) := by
  rw [detect_churn_score_eq, detect_churn_score_eq]
  exact churn_formula_mono _ _ _ _ _ _ r ha hm hb

/-- C7 witness: "demora" versus "demora golpe" at rating 1, sentiment
negativo. -/
theorem churn_score_monotone_witness :
    countSignals CHURN_ALTA (pyLower ("demora" : String).toList) <
      countSignals CHURN_ALTA (pyLower ("demora golpe" : String).toList) ∧
    countSignals CHURN_MEDIA (pyLower ("demora" : String).toList) ≤
      countSignals CHURN_MEDIA (pyLower ("demora golpe" : String).toList) ∧
    countSignals CHURN_BAIXA (pyLower ("demora" : String).toList) ≤
      countSignals CHURN_BAIXA (pyLower ("demora golpe" : String).toList) ∧
    ((detect_churn_risk (some "demora") 1 "negativo").churn_score ≤
        (detect_churn_risk (some "demora golpe") 1 "negativo").churn_score ∧
      ((detect_churn_risk (some "demora golpe") 1 "negativo").churn_score =
          (detect_churn_risk (some "demora") 1 "negativo").churn_score →
        (detect_churn_risk (some "demora golpe") 1 "negativo").churn_score = 100)) :=
  ⟨by decide, by decide, by decide,
    churn_score_monotone_in_high_signals "demora" "demora golpe" 1 "negativo"
      (by decide) (by decide) (by decide)⟩

/-- C9: the record returned by `detect_churn_risk` always satisfies
is_critical ↔ risk_level = alto_risco, including the null-text path. -/
theorem is_critical_iff_alto_risco (text : Option String) (r : ℤ) (s : String) :
    (detect_churn_risk text r s).is_critical = true ↔
      (detect_churn_risk text r s).risk_level = "alto_risco" := by
  cases text with
  | none =>
    show (false = true) ↔ ("sem_risco" = "alto_risco")
    decide
  | some str =>
    by_cases h : str = ""
    · subst h
      have hres : detect_churn_risk (some "") r s = no_risk_result := by
        simp [detect_churn_risk]
      rw [hres]
      show (false = true) ↔ ("sem_risco" = "alto_risco")
      decide
    · rw [detect_churn_risk_some str h r s]
      dsimp only
      exact beq_iff_eq

/-- C10: because "não recomendo" appears in both the high and the medium
severity tiers, the text "não recomendo" yields a main_reasons list that
contains that phrase twice (once per tier), for every rating and
sentiment. -/
theorem main_reasons_duplicate_nao_recomendo :
    ("não recomendo" ∈ CHURN_ALTA ∧ "não recomendo" ∈ CHURN_MEDIA) ∧
    ∀ (r : ℤ) (s : String),
      (detect_churn_risk (some "não recomendo") r s).main_reasons =
        ["não recomendo", "não recomendo"] := by
  refine ⟨⟨by decide, by decide⟩, ?_⟩
  intro r s
  rw [detect_churn_risk_some _ (by decide)]
  dsimp only
  decide

/-! ## Claims C3 and C8: the category extractor -/

/-- Python's `max(iterable, key=f)` keeps the current candidate on ties,
so the fold of `pyMaxBy` returns the first element of `h :: tl` attaining
the maximal count: it decomposes the list into strictly smaller elements,
the chosen one, and a tail it dominates. -/
theorem pyMaxBy_first_max (tl : List (String × ℕ)) (h : String × ℕ) :
    ∃ pre post, h :: tl = pre ++ pyMaxBy h tl :: post ∧
      (∀ q ∈ pre, q.2 < (pyMaxBy h tl).2) ∧
      (∀ q ∈ h :: tl, q.2 ≤ (pyMaxBy h tl).2) := by
  induction tl generalizing h with
  | nil =>
    refine ⟨[], [], rfl, by simp, ?_⟩
    intro q hq
    rw [List.mem_singleton.mp hq]
    exact le_refl _
  | cons p tl ih =>
    have hstep : pyMaxBy h (p :: tl) = pyMaxBy (if p.2 > h.2 then p else h) tl := rfl
    by_cases hc : p.2 > h.2
    · obtain ⟨pre, post, e, hlt, hle⟩ := ih p
      have hpM : p.2 ≤ (pyMaxBy p tl).2 := hle p (List.mem_cons_self p tl)
      refine ⟨h :: pre, post, ?_, ?_, ?_⟩
      · rw [hstep, if_pos hc, List.cons_append]
        exact congrArg (List.cons h) e
      · intro q hq
        rw [hstep, if_pos hc]
        rcases List.mem_cons.mp hq with rfl | hq2
        · exact lt_of_lt_of_le hc hpM
        · exact hlt q hq2
      · intro q hq
        rw [hstep, if_pos hc]
        rcases List.mem_cons.mp hq with rfl | hq2
        · exact le_of_lt (lt_of_lt_of_le hc hpM)
        · exact hle q hq2
    · have hc2 : p.2 ≤ h.2 := not_lt.mp hc
      have hM : pyMaxBy h (p :: tl) = pyMaxBy h tl := by rw [hstep, if_neg hc]
      obtain ⟨pre, post, e, hlt, hle⟩ := ih h
      have hhM : h.2 ≤ (pyMaxBy h tl).2 := hle h (List.mem_cons_self h tl)
      cases pre with
      | nil =>
        rw [List.nil_append] at e
        injection e with e1 e2
        refine ⟨[], p :: tl, ?_, by simp, ?_⟩
        · rw [List.nil_append, hM, ← e1]
        · intro q hq
          rw [hM]
          rcases List.mem_cons.mp hq with rfl | hq2
          · exact hhM
          · rcases List.mem_cons.mp hq2 with rfl | hq3
            · exact le_trans hc2 hhM
            · exact hle q (List.mem_cons_of_mem h hq3)
      | cons h0 pre2 =>
        rw [List.cons_append] at e
        injection e with e1 e2
        have hhlt : h.2 < (pyMaxBy h tl).2 := by
          have hx := hlt h0 (List.mem_cons_self h0 pre2)
          rw [← e1] at hx
          exact hx
        refine ⟨h :: p :: pre2, post, ?_, ?_, ?_⟩
        · rw [hM, List.cons_append, List.cons_append, ← e2]
        · intro q hq
          rw [hM]
          rcases List.mem_cons.mp hq with rfl | hq2
          · exact hhlt
          · rcases List.mem_cons.mp hq2 with rfl | hq3
            · exact lt_of_le_of_lt hc2 hhlt
            · exact hlt q (List.mem_cons_of_mem h0 hq3)
        · intro q hq
          rw [hM]
          rcases List.mem_cons.mp hq with rfl | hq2
          · exact le_of_lt hhlt
          · rcases List.mem_cons.mp hq2 with rfl | hq3
            · exact le_of_lt (lt_of_le_of_lt hc2 hhlt)
            · exact hle q (List.mem_cons_of_mem h hq3)

/-- Every entry of the `scores` dict has a positive count and a category
name from the fixed table (in particular, never the sentinel "Outros"). -/
theorem categoryScores_pos (t : List Char) (q : String × ℕ)
    (hq : q ∈ categoryScores t) : 0 < q.2 ∧ ¬q.1 = "Outros" := by
  unfold categoryScores at hq
  obtain ⟨a, ha, hfa⟩ := List.mem_filterMap.mp hq
  dsimp only at hfa
  by_cases hn : (a.2.filter (fun kw => containsSub kw t)).length > 0
  · rw [if_pos hn] at hfa
    injection hfa with hfa2
    rw [← hfa2]
    refine ⟨hn, ?_⟩
    have hnames : ∀ x ∈ CATEGORY_KEYWORDS, ¬x.1 = "Outros" := by decide
    exact hnames a ha
  · rw [if_neg hn] at hfa
    exact absurd hfa (by simp)

/-- C3: whenever the scores dict is non-empty (in particular whenever two
or more categories tie at the maximal count), `extract_category` returns
the entry that comes first in keyword-table declaration order among those
attaining the maximum, with confidence min(count/3, 1); and on the
two-way tie "celular notebook" it returns ("Smartphones", 1/3),
Smartphones being declared before Notebooks e Computadores. -/
theorem extract_category_first_max_tiebreak :
    (∀ (s : String) (p : String × ℕ) (ps : List (String × ℕ)),
      ¬s = "" → categoryScores (pyLower s.toList) = p :: ps →
      ∃ pre post best,
        categoryScores (pyLower s.toList) = pre ++ best :: post ∧
        (∀ q ∈ pre, q.2 < best.2) ∧
        (∀ q ∈ categoryScores (pyLower s.toList), q.2 ≤ best.2) ∧
        extract_category (some s) = (best.1, min ((best.2 : ℚ) / 3) 1)) ∧
    extract_category (some "celular notebook") = ("Smartphones", 1 / 3) := by
  constructor
  · intro s p ps hs hscores
    obtain ⟨pre, post, e, hlt, hle⟩ := pyMaxBy_first_max ps p
    refine ⟨pre, post, pyMaxBy p ps, ?_, hlt, ?_, ?_⟩
    · rw [hscores]
      exact e
    · rw [hscores]
      exact hle
    · rw [extract_category_some s hs, hscores]
  · have hs : categoryScores (pyLower ("celular notebook" : String).toList) =
        [("Smartphones", 1), ("Notebooks e Computadores", 1)] := by decide
    rw [extract_category_some "celular notebook" (by decide), hs]
    show (("Smartphones" : String), min (((1 : ℕ) : ℚ) / 3) 1) = ("Smartphones", 1 / 3)
    rw [min_eq_left (by norm_num : ((1 : ℕ) : ℚ) / 3 ≤ 1)]
    norm_num

/-- C3 witness: the two-way tie between Smartphones and Notebooks e
Computadores on "celular notebook", discharging both hypotheses of the
universal part. -/
theorem extract_category_first_max_tiebreak_witness :
    (¬("celular notebook" : String) = "") ∧
    categoryScores (pyLower ("celular notebook" : String).toList) =
      ("Smartphones", 1) :: [("Notebooks e Computadores", 1)] ∧
    (∃ pre post best,
      categoryScores (pyLower ("celular notebook" : String).toList) =
        pre ++ best :: post ∧
      (∀ q ∈ pre, q.2 < best.2) ∧
      (∀ q ∈ categoryScores (pyLower ("celular notebook" : String).toList),
        q.2 ≤ best.2) ∧
      extract_category (some "celular notebook") = (best.1, min ((best.2 : ℚ) / 3) 1)) :=
  ⟨by decide, by decide,
    extract_category_first_max_tiebreak.1 "celular notebook"
      ("Smartphones", 1) [("Notebooks e Computadores", 1)] (by decide) (by decide)⟩

/-- C8: the pair returned by `extract_category` has category "Outros"
exactly when the confidence is 0, and a non-"Outros" category always comes
with confidence 1/3, 2/3 or 1. -/
theorem extract_category_confidence_invariant (text : Option String) :
    ((extract_category text).1 = "Outros" ↔ (extract_category text).2 = 0) ∧
    (¬(extract_category text).1 = "Outros" →
      (extract_category text).2 = 1 / 3 ∨ (extract_category text).2 = 2 / 3 ∨
        (extract_category text).2 = 1) := by
  have houtros :
      ∀ (res : String × ℚ), res = ("Outros", 0) →
        ((res.1 = "Outros" ↔ res.2 = 0) ∧
          (¬res.1 = "Outros" →
            res.2 = 1 / 3 ∨ res.2 = 2 / 3 ∨ res.2 = 1)) := by
    rintro _ rfl
    exact ⟨by constructor <;> intro <;> rfl, fun hne => absurd rfl hne⟩
  cases text with
  | none => exact houtros _ rfl
  | some s =>
    by_cases hs : s = ""
    · subst hs
      exact houtros _ rfl
    · rcases hsc : categoryScores (pyLower s.toList) with _ | ⟨p, ps⟩
      · refine houtros _ ?_
        rw [extract_category_some s hs, hsc]
      · have hmem : pyMaxBy p ps ∈ categoryScores (pyLower s.toList) := by
          obtain ⟨pre, post, e, _, _⟩ := pyMaxBy_first_max ps p
          rw [hsc, e]
          exact List.mem_append_right _ (List.mem_cons_self _ _)
        obtain ⟨hpos, hname⟩ := categoryScores_pos _ _ hmem
        have hres : extract_category (some s) =
            ((pyMaxBy p ps).1, min (((pyMaxBy p ps).2 : ℚ) / 3) 1) := by
          rw [extract_category_some s hs, hsc]
        rw [hres]
        dsimp only
        constructor
        · constructor
          · intro hcontra
            exact absurd hcontra hname
          · intro habs
            have hposq : (0 : ℚ) < min (((pyMaxBy p ps).2 : ℚ) / 3) 1 := by
              apply lt_min _ one_pos
              apply div_pos _ (by norm_num)
              exact_mod_cast hpos
            rw [habs] at hposq
            exact (lt_irrefl 0 hposq).elim
        · intro _
          obtain ⟨n, hn⟩ : ∃ n, (pyMaxBy p ps).2 = n := ⟨_, rfl⟩
          rw [hn] at hpos ⊢
          rcases Nat.lt_or_ge n 3 with h3 | h3
          · interval_cases n
            · left
              rw [min_eq_left (by norm_num : ((1 : ℕ) : ℚ) / 3 ≤ 1)]
              norm_num
            · right
              left
              rw [min_eq_left (by norm_num : ((2 : ℕ) : ℚ) / 3 ≤ 1)]
              norm_num
          · right
            right
            have h1 : (1 : ℚ) ≤ (n : ℚ) / 3 := by
              rw [le_div_iff₀ (by norm_num : (0 : ℚ) < 3)]
              have h3q : (3 : ℚ) ≤ (n : ℚ) := by exact_mod_cast h3
              linarith
            rw [min_eq_right h1]

/-! ## Claim C1: idempotence of the cleaning pipeline

Basic facts about lowering, lookups and `dropWhile`. -/

theorem words_wf {l : List Char} {w : List Char} (hw : w ∈ words l) :
    w ≠ [] ∧ ∀ c ∈ w, pySpace c = false := by
  induction l using words.induct with
  | case1 => simp [words] at hw
  | case2 d tail hsp ih =>
    rw [words, if_pos hsp] at hw
    exact ih hw
  | case3 d tail hsp ih =>
    rw [words, if_neg hsp] at hw
    rcases List.mem_cons.mp hw with rfl | h2
    · refine ⟨by simp, ?_⟩
      intro c hc
      rcases List.mem_cons.mp hc with rfl | h3
      · exact Bool.eq_false_iff.mpr hsp
      · have := List.mem_takeWhile_imp h3
        simp [pyNotSpace] at this
        exact this
    · exact ih h2

theorem head_collapsePunct {l : List Char} {y : Char}
    (h : (collapsePunct l).head? = some y) : y = ' ' ∨ l.head? = some y := by
  cases l with
  | nil => simp [collapsePunct] at h
  | cons c cs =>
    by_cases hp : punctChar c = true
    · cases htw : cs.takeWhile punctChar with
      | nil =>
        rw [collapsePunct, if_pos hp, htw, List.head?_cons] at h
        injection h with h2
        rw [← h2]
        exact Or.inr rfl
      | cons d1 t1 =>
        rw [collapsePunct, if_pos hp, htw, List.head?_cons] at h
        injection h with h2
        exact Or.inl h2.symm
    · rw [collapsePunct, if_neg hp, List.head?_cons] at h
      injection h with h2
      rw [← h2]
      exact Or.inr rfl

end Dashboard
